import Mathlib

/-!
Verification of the quiz-app frontend's navigation-guard fragment and the
registration-form logic, as a shallow embedding of the TypeScript/Vue source.

The router module declares a static route table (path pattern, route name,
component identifier, `meta.authRequired` flag) and installs a single
`router.beforeEach` guard that consults the user store's `isAuthenticated`
flag: navigation to a route with `authRequired = true` proceeds only when the
session is authenticated, otherwise the guard returns a redirect directive
`{ name: 'login', query: { redirect: to.fullPath } }`.

`CreateUser.vue` holds the registration form: `isBlank`, the `fieldsFilled`
computed property driving the submit button's `disabled` binding, the
`preventSpace` keydown handler, and the `register` submit handler.
-/

namespace QuizApp

/-! ## Router data model -/

/-- Route `meta` object: the per-route authentication requirement. -/
structure RouteMeta where
  authRequired : Bool
deriving DecidableEq, Repr

/-- A record of the static route table: path pattern, unique name, the view
component's identifier, and the meta flags. -/
structure RouteRecord where
  path : String
  name : String
  component : String
  meta : RouteMeta
deriving DecidableEq, Repr

/-- The resolved target of a navigation, as seen by the guard: the matched
route's name and meta, and the full requested path (including any sub-path or
query string). -/
structure ResolvedRoute where
  name : String
  fullPath : String
  meta : RouteMeta
deriving DecidableEq, Repr

/-- The redirect object the guard can return:
`{ name: 'login', query: { redirect: <path> } }`. -/
structure RedirectDirective where
  name : String
  redirect : String
deriving DecidableEq, Repr

/-- The guard's outcome: `true` (proceed) or a redirect object. -/
inductive Decision where
  | proceed
  | redirect (d : RedirectDirective)
deriving DecidableEq, Repr

/-- The route table of `createRouter`, in source order. -/
def routes : List RouteRecord :=
  [ { path := "/", name := "home", component := "HomeView",
      meta := { authRequired := false } },
    { path := "/login", name := "login", component := "UserLoginView",
      meta := { authRequired := false } },
    { path := "/register-user", name := "register", component := "CreateUserView",
      meta := { authRequired := false } },
    { path := "/user-profile", name := "user-profile", component := "UserProfileView",
      meta := { authRequired := true } },
    { path := "/user-progress", name := "user-progress", component := "UserProgressView",
      meta := { authRequired := true } },
    { path := "/user-quizzes", name := "user-quizzes", component := "UserQuizzesView",
      meta := { authRequired := true } },
    { path := "/quiz-browser", name := "quiz-browser", component := "QuizBrowser",
      meta := { authRequired := false } },
    { path := "/quiz-runner/:quizId", name := "quiz-runner", component := "QuizRunnerMenu",
      meta := { authRequired := false } },
    { path := "/contact", name := "contact", component := "FeedbackPage",
      meta := { authRequired := false } },
    { path := "/quiz-creator", name := "quiz-creator", component := "QuizCreator",
      meta := { authRequired := false } },
    { path := "/:pathName(.*)", name := "not-found", component := "NotFound",
      meta := { authRequired := false } } ]

/-- The catch-all descriptor `/:pathName(.*)` (the last entry of `routes`). -/
def notFoundRecord : RouteRecord :=
  { path := "/:pathName(.*)", name := "not-found", component := "NotFound",
    meta := { authRequired := false } }

/-- The `/login` descriptor (second entry of `routes`). -/
def loginRecord : RouteRecord :=
  { path := "/login", name := "login", component := "UserLoginView",
    meta := { authRequired := false } }

/-- Whether a route pattern of this table matches a concrete path.
Static patterns match by equality; `/quiz-runner/:quizId` matches one extra
non-empty segment; the wildcard `/:pathName(.*)` matches any path. -/
def matchesPath (pattern : String) (path : String) : Bool :=
  if pattern = "/:pathName(.*)" then
    true
  else if pattern = "/quiz-runner/:quizId" then
    path.startsWith "/quiz-runner/" &&
      !(path.drop 13).isEmpty && !(path.drop 13).contains '/'
  else
    pattern = path

/-- Resolution of a requested path against the route table: the first record
(in source order) whose pattern matches. The wildcard record matches any path,
so resolution never fails; `notFoundRecord` is the formal default. -/
def resolveRoute (path : String) : RouteRecord :=
  (routes.find? fun r => matchesPath r.path path).getD notFoundRecord

/-- The resolved-route object the router hands to the guard for a request of
`path` that matched record `r` (its `fullPath` is the requested path). -/
def recordToResolved (r : RouteRecord) (path : String) : ResolvedRoute :=
  { name := r.name, fullPath := path, meta := r.meta }

/-- The `router.beforeEach` guard. The source reads the session flag via
`isAuthenticated()` (a synchronous read of `store.isAuthenticated`); here the
flag is the explicit argument `sessionAuthenticated`. The `console.log` of the
transition is side-effect-only and does not influence the decision. -/
def beforeEach («to» : ResolvedRoute) (sessionAuthenticated : Bool) : Decision :=
  if «to».meta.authRequired then
    if sessionAuthenticated then
      Decision.proceed
    else
      Decision.redirect { name := "login", redirect := «to».fullPath }
  else
    Decision.proceed

/-- The log line emitted by the guard before deciding (observability only). -/
def guardLogLine («to» fr : ResolvedRoute) : String :=
  "Trying to go from " ++ fr.name ++ " to: " ++ «to».name

/-- Which route is finally rendered for a navigation: if the guard proceeds,
the target itself; on a redirect, the router re-targets navigation to the
named route of the directive (looked up in the table). -/
def renderAfterGuard («to» : ResolvedRoute) (sessionAuthenticated : Bool) : ResolvedRoute :=
  match beforeEach «to» sessionAuthenticated with
  | Decision.proceed => «to»
  | Decision.redirect d =>
      ((routes.find? fun r => r.name = d.name).map
        fun r => recordToResolved r r.path).getD «to»

/-! ## Registration form (`CreateUser.vue`) -/

/-- A character of the JavaScript `\s` class (the characters the regex
`/^\s*$/` treats as whitespace; the common ones suffice for these proofs). -/
def isJsWhitespaceChar (c : Char) : Bool :=
  c = ' ' || c = '\t' || c = '\n' || c = '\r' ||
    c = '\x0b' || c = '\x0c' || c = ' ' || c = '﻿'

/-- `isBlank(str)`: `!str || /^\s*$/.test(str)` — the string is empty or
consists only of whitespace characters (stated over the string's character
list). -/
def isBlank (str : String) : Bool :=
  str.data.isEmpty || str.data.all isJsWhitespaceChar

/-- The reactive state of the registration form component: the six bound
input fields and the displayed error message. -/
structure CreateUserForm where
  username : String
  password : String
  confirmPassword : String
  email : String
  name : String
  surname : String
  errorMessage : String
deriving DecidableEq, Repr

/-- The `fieldsFilled` computed property, exactly as in the source: it checks
`username`, `email`, `name`, `surname` and `confirmPassword` for blankness
(the `password` field does not appear in it). -/
def fieldsFilled (f : CreateUserForm) : Bool :=
  !isBlank f.username &&
  !isBlank f.email &&
  !isBlank f.name &&
  !isBlank f.surname &&
  !isBlank f.confirmPassword

/-- The submit button's template binding is `:disabled="!fieldsFilled"`, so
the Register button is enabled exactly when `fieldsFilled` holds. -/
def registerButtonEnabled (f : CreateUserForm) : Bool :=
  fieldsFilled f

/-- The observable pieces of a DOM keydown event that `preventSpace` reads
(`event.key`, `event.code`), plus the cancellation flag that
`event.preventDefault()` sets. -/
structure KeydownEvent where
  key : String
  code : String
  defaultPrevented : Bool
deriving DecidableEq, Repr

/-- `preventSpace(event)`: calls `event.preventDefault()` exactly when
`event.key === " " || event.code === "Space"`. -/
def preventSpace (event : KeydownEvent) : KeydownEvent :=
  if event.key = " " || event.code = "Space" then
    { event with defaultPrevented := true }
  else
    event

/-- The `CreateUserRequestDTO` payload built by `register` from the trimmed
field values. -/
structure CreateUserRequestDTO where
  username : String
  password : String
  email : String
  name : String
  surname : String
deriving DecidableEq, Repr

/-- What a run of `register` did: the resulting form state, the argument of
the `store.registerUser` call if one was made, and the path passed to
`router.push` if navigation happened. -/
structure RegisterResult where
  form : CreateUserForm
  registerCall : Option CreateUserRequestDTO
  navigation : Option String
deriving DecidableEq, Repr

/-- The `register` submit handler. The behaviour of the external
`store.registerUser` call is the parameter `storeResult`: `Except.ok ()` for
a normal return, `Except.error msg` for a thrown error whose
`ErrorHandlingService.handleRequestError` translation is `msg`.
`redirectQuery` is `route.query.redirect` (`none` when absent); the source
tests it for JavaScript truthiness, so an empty string also falls back to
`"/"`. -/
def register (f : CreateUserForm) (redirectQuery : Option String)
    (storeResult : Except String Unit) : RegisterResult :=
  if f.password ≠ f.confirmPassword then
    { form := { f with errorMessage := "Password conformation not correct." },
      registerCall := none,
      navigation := none }
  else
    let user : CreateUserRequestDTO :=
      { username := f.username.trim,
        password := f.password.trim,
        email := f.email.trim,
        name := f.name.trim,
        surname := f.surname.trim }
    match storeResult with
    | Except.ok _ =>
        { form := f,
          registerCall := some user,
          navigation := some (match redirectQuery with
            | some r => if r.isEmpty then "/" else r
            | none => "/") }
    | Except.error msg =>
        { form := { f with errorMessage := msg },
          registerCall := some user,
          navigation := none }

/-! ## Helper lemmas -/

/-- Looking the name `login` up in the route table yields the `/login`
descriptor. -/
theorem find_login_record : (routes.find? fun r => r.name = "login") = some loginRecord := by
  decide

/-- The `/login` descriptor declares `authRequired = false`. -/
theorem loginRecord_public : loginRecord.meta.authRequired = false := rfl

/-! ## Claims -/

/-- Claim C1: for every navigation whose target has `authRequired = true`,
with an unauthenticated session, the guard returns a redirect whose target
route name is `login` and whose `query.redirect` is the exact originally
requested full path of the target. -/
theorem guard_redirects_unauthenticated («to» : ResolvedRoute) (s : Bool)
    (hreq : «to».meta.authRequired = true) (hs : s = false) :
    beforeEach «to» s =
      Decision.redirect { name := "login", redirect := «to».fullPath } := by
  simp [beforeEach, hreq, hs]

/-- Witness for C1: the spec's scenario, target `/user-profile`
(`authRequired = true` in the table), session unauthenticated. -/
theorem guard_redirects_unauthenticated_witness :
    (resolveRoute "/user-profile").meta.authRequired = true ∧
    beforeEach (recordToResolved (resolveRoute "/user-profile") "/user-profile") false =
      Decision.redirect { name := "login", redirect := "/user-profile" } :=
  ⟨by decide,
   guard_redirects_unauthenticated
     (recordToResolved (resolveRoute "/user-profile") "/user-profile") false
     (by decide) rfl⟩

/-- Claim C2: for every navigation whose target has `authRequired = false`,
the guard returns Proceed, for both values of the session flag. -/
theorem guard_proceeds_public («to» : ResolvedRoute) (s : Bool)
    (hreq : «to».meta.authRequired = false) :
    beforeEach «to» s = Decision.proceed := by
  simp [beforeEach, hreq]

/-- Witness for C2: the spec's scenario, target `/quiz-browser`
(`authRequired = false` in the table), session unauthenticated. -/
theorem guard_proceeds_public_witness :
    (resolveRoute "/quiz-browser").meta.authRequired = false ∧
    beforeEach (recordToResolved (resolveRoute "/quiz-browser") "/quiz-browser") false =
      Decision.proceed :=
  ⟨by decide,
   guard_proceeds_public
     (recordToResolved (resolveRoute "/quiz-browser") "/quiz-browser") false
     (by decide)⟩

/-- Claim C3: for every navigation whose target has `authRequired = true`,
with an authenticated session, the guard returns Proceed. -/
theorem guard_proceeds_authenticated («to» : ResolvedRoute) (s : Bool)
    (hreq : «to».meta.authRequired = true) (hs : s = true) :
    beforeEach «to» s = Decision.proceed := by
  simp [beforeEach, hreq, hs]

/-- Witness for C3: the spec's scenario, target `/user-quizzes`
(`authRequired = true` in the table), session authenticated. -/
theorem guard_proceeds_authenticated_witness :
    (resolveRoute "/user-quizzes").meta.authRequired = true ∧
    beforeEach (recordToResolved (resolveRoute "/user-quizzes") "/user-quizzes") true =
      Decision.proceed :=
  ⟨by decide,
   guard_proceeds_authenticated
     (recordToResolved (resolveRoute "/user-quizzes") "/user-quizzes") true
     (by decide) rfl⟩

/-- Claim C4: the guard never returns Proceed for an `authRequired` target
without a session; in that state the decision is the login redirect carrying
the originally requested path, and the route finally rendered is the login
view, never an authenticated-required one. -/
theorem guard_never_renders_protected («to» : ResolvedRoute) (s : Bool)
    (hreq : «to».meta.authRequired = true) (hs : s = false) :
    beforeEach «to» s ≠ Decision.proceed ∧
    beforeEach «to» s = Decision.redirect { name := "login", redirect := «to».fullPath } ∧
    renderAfterGuard «to» s = recordToResolved loginRecord "/login" ∧
    (renderAfterGuard «to» s).meta.authRequired = false := by
  subst hs
  have hdec : beforeEach «to» false =
      Decision.redirect { name := "login", redirect := «to».fullPath } := by
    simp [beforeEach, hreq]
  refine ⟨by simp [hdec], hdec, ?_, ?_⟩
  · simp [renderAfterGuard, hdec, find_login_record]
    rfl
  · simp [renderAfterGuard, hdec, find_login_record, recordToResolved, loginRecord]

/-- Witness for C4: target `/user-progress` with an unauthenticated session
is redirected to the login view. -/
theorem guard_never_renders_protected_witness :
    beforeEach (recordToResolved (resolveRoute "/user-progress") "/user-progress") false ≠
      Decision.proceed ∧
    beforeEach (recordToResolved (resolveRoute "/user-progress") "/user-progress") false =
      Decision.redirect { name := "login", redirect := "/user-progress" } ∧
    renderAfterGuard (recordToResolved (resolveRoute "/user-progress") "/user-progress") false =
      recordToResolved loginRecord "/login" ∧
    (renderAfterGuard (recordToResolved (resolveRoute "/user-progress") "/user-progress")
      false).meta.authRequired = false :=
  guard_never_renders_protected
    (recordToResolved (resolveRoute "/user-progress") "/user-progress") false
    (by decide) rfl

/-- Claim C9: the guard's decision is a deterministic function of the target
route's `authRequired` flag and full path together with the session flag:
two evaluations on equal inputs yield equal decisions. -/
theorem guard_deterministic («to» to2 : ResolvedRoute) (s s2 : Bool)
    (hmeta : «to».meta.authRequired = to2.meta.authRequired)
    (hpath : «to».fullPath = to2.fullPath) (hs : s = s2) :
    beforeEach «to» s = beforeEach to2 s2 := by
  simp [beforeEach, hmeta, hpath, hs]

/-- Witness for C9: evaluating the `/user-profile` navigation twice with the
same session flag gives the same decision both times. -/
theorem guard_deterministic_witness :
    beforeEach (recordToResolved (resolveRoute "/user-profile") "/user-profile") false =
    beforeEach (recordToResolved (resolveRoute "/user-profile") "/user-profile") false :=
  guard_deterministic
    (recordToResolved (resolveRoute "/user-profile") "/user-profile")
    (recordToResolved (resolveRoute "/user-profile") "/user-profile")
    false false rfl rfl rfl

/-- Claim C10: every redirect the guard emits targets the route named
`login`; that name resolves in the table to the `/login` descriptor, which
has `authRequired = false`, so evaluating the guard on the redirect's own
target returns Proceed for both session values: no redirect loop. -/
theorem guard_no_redirect_loop («to» : ResolvedRoute) (s : Bool) (d : RedirectDirective)
    (h : beforeEach «to» s = Decision.redirect d) :
    d.name = "login" ∧
    (routes.find? fun r => r.name = d.name) = some loginRecord ∧
    loginRecord.meta.authRequired = false ∧
    ∀ s2 : Bool, ∀ p : String,
      beforeEach (recordToResolved loginRecord p) s2 = Decision.proceed := by
  have hd : d = { name := "login", redirect := «to».fullPath } := by
    unfold beforeEach at h
    split at h
    · split at h
      · exact absurd h (by simp)
      · exact (Decision.redirect.injEq _ _).mp h.symm
    · exact absurd h (by simp)
  subst hd
  refine ⟨rfl, find_login_record, rfl, ?_⟩
  intro s2 p
  simp [beforeEach, recordToResolved, loginRecord]

/-- Witness for C10: the redirect produced for an unauthenticated
`/user-quizzes` navigation targets `login`, whose descriptor is public. -/
theorem guard_no_redirect_loop_witness :
    (RedirectDirective.mk "login" "/user-quizzes").name = "login" ∧
    (routes.find? fun r => r.name = (RedirectDirective.mk "login" "/user-quizzes").name) =
      some loginRecord ∧
    loginRecord.meta.authRequired = false ∧
    ∀ s2 : Bool, ∀ p : String,
      beforeEach (recordToResolved loginRecord p) s2 = Decision.proceed :=
  guard_no_redirect_loop
    (recordToResolved (resolveRoute "/user-quizzes") "/user-quizzes") false
    (RedirectDirective.mk "login" "/user-quizzes")
    (by decide)

/-- Claim C8: a path matched by no non-wildcard descriptor resolves to the
catch-all (`not-found`) descriptor, which has `authRequired = false`, so the
guard proceeds; and the wildcard descriptor is the last entry of the route
table. -/
theorem unmatched_path_resolves_catchall (p : String)
    (h : ∀ r ∈ routes, r.name ≠ "not-found" → matchesPath r.path p = false) :
    resolveRoute p = notFoundRecord ∧
    notFoundRecord.meta.authRequired = false ∧
    (∀ s : Bool, beforeEach (recordToResolved notFoundRecord p) s = Decision.proceed) ∧
    routes.getLast? = some notFoundRecord := by
  have h1 : matchesPath "/" p = false :=
    h (RouteRecord.mk "/" "home" "HomeView" ⟨false⟩) (by decide) (by decide)
  have h2 : matchesPath "/login" p = false :=
    h (RouteRecord.mk "/login" "login" "UserLoginView" ⟨false⟩) (by decide) (by decide)
  have h3 : matchesPath "/register-user" p = false :=
    h (RouteRecord.mk "/register-user" "register" "CreateUserView" ⟨false⟩)
      (by decide) (by decide)
  have h4 : matchesPath "/user-profile" p = false :=
    h (RouteRecord.mk "/user-profile" "user-profile" "UserProfileView" ⟨true⟩)
      (by decide) (by decide)
  have h5 : matchesPath "/user-progress" p = false :=
    h (RouteRecord.mk "/user-progress" "user-progress" "UserProgressView" ⟨true⟩)
      (by decide) (by decide)
  have h6 : matchesPath "/user-quizzes" p = false :=
    h (RouteRecord.mk "/user-quizzes" "user-quizzes" "UserQuizzesView" ⟨true⟩)
      (by decide) (by decide)
  have h7 : matchesPath "/quiz-browser" p = false :=
    h (RouteRecord.mk "/quiz-browser" "quiz-browser" "QuizBrowser" ⟨false⟩)
      (by decide) (by decide)
  have h8 : matchesPath "/quiz-runner/:quizId" p = false :=
    h (RouteRecord.mk "/quiz-runner/:quizId" "quiz-runner" "QuizRunnerMenu" ⟨false⟩)
      (by decide) (by decide)
  have h9 : matchesPath "/contact" p = false :=
    h (RouteRecord.mk "/contact" "contact" "FeedbackPage" ⟨false⟩) (by decide) (by decide)
  have h10 : matchesPath "/quiz-creator" p = false :=
    h (RouteRecord.mk "/quiz-creator" "quiz-creator" "QuizCreator" ⟨false⟩)
      (by decide) (by decide)
  have hwild : matchesPath "/:pathName(.*)" p = true := by simp [matchesPath]
  refine ⟨?_, rfl, ?_, by decide⟩
  · simp [resolveRoute, routes, List.find?, h1, h2, h3, h4, h5, h6, h7, h8, h9, h10, hwild]
    rfl
  · intro s
    simp [beforeEach, recordToResolved, notFoundRecord]

/-- Witness for C8: the spec's scenario, the unmatched path `/xyz123`. -/
theorem unmatched_path_resolves_catchall_witness :
    resolveRoute "/xyz123" = notFoundRecord ∧
    notFoundRecord.meta.authRequired = false ∧
    (∀ s : Bool, beforeEach (recordToResolved notFoundRecord "/xyz123") s =
      Decision.proceed) ∧
    routes.getLast? = some notFoundRecord :=
  unmatched_path_resolves_catchall "/xyz123" (by decide)

/-- Claim C5 (failing input): with every field non-blank except an empty
`password`, the Register button is enabled even though `password` is blank —
`fieldsFilled` checks `username`, `email`, `name`, `surname` and
`confirmPassword` but never `password`, contradicting its own comment that it
determines whether all required fields are filled (the `password` input is
marked `required`). -/
theorem register_button_enabled_with_blank_password :
    registerButtonEnabled
      { username := "alice", password := "", confirmPassword := "secret",
        email := "a@b.c", name := "Alice", surname := "Smith",
        errorMessage := "" } = true ∧
    isBlank "" = true := by
  decide

/-- Claim C6 counterexample: a keydown event whose `key` is the whitespace
character TAB (`"\t"`) is not cancelled by `preventSpace`, although every
character of its key is whitespace. -/
theorem preventSpace_misses_tab_character :
    isJsWhitespaceChar '\t' = true ∧
    (preventSpace { key := "\t", code := "Tab", defaultPrevented := false
      }).defaultPrevented = false := by
  decide

/-- Claim C6 (amended): `preventSpace` cancels exactly the keydown events
with `key = " "` or `code = "Space"`; in particular every space keystroke is
cancelled, but other whitespace keys are not. -/
theorem preventSpace_cancels_iff_space (e : KeydownEvent)
    (h : e.defaultPrevented = false) :
    (preventSpace e).defaultPrevented = true ↔ (e.key = " " ∨ e.code = "Space") := by
  constructor
  · intro hp
    by_contra hn
    push_neg at hn
    simp [preventSpace, hn.1, hn.2, h] at hp
  · intro hk
    rcases hk with hk | hk <;> simp [preventSpace, hk]

/-- Witness for the amended C6: the space keystroke is cancelled. -/
theorem preventSpace_cancels_iff_space_witness :
    (preventSpace { key := " ", code := "Space", defaultPrevented := false
      }).defaultPrevented = true :=
  (preventSpace_cancels_iff_space
    { key := " ", code := "Space", defaultPrevented := false } rfl).mpr
    (Or.inl rfl)

/-- Claim C7: when `password` differs from `confirmPassword`, `register` only
sets the error message and returns — no `store.registerUser` call, no
navigation, all other fields unchanged; and `store.registerUser` is invoked
only when the two password fields are equal. -/
theorem register_requires_password_match (f : CreateUserForm)
    (q : Option String) (res : Except String Unit)
    (h : f.password ≠ f.confirmPassword) :
    register f q res =
      { form := { f with errorMessage := "Password conformation not correct." },
        registerCall := none,
        navigation := none } ∧
    ∀ f2 : CreateUserForm, ∀ q2 : Option String, ∀ res2 : Except String Unit,
      (register f2 q2 res2).registerCall.isSome = true →
      f2.password = f2.confirmPassword := by
  constructor
  · simp [register, h]
  · intro f2 q2 res2 hc
    by_contra hne
    simp [register, hne] at hc

/-- Witness for C7: a concrete mismatching form; `register` reports the
error and makes no store call and no navigation. -/
theorem register_requires_password_match_witness :
    register
      { username := "alice", password := "a", confirmPassword := "b",
        email := "a@b.c", name := "Alice", surname := "Smith",
        errorMessage := "" } none (Except.ok ()) =
      { form := { username := "alice", password := "a", confirmPassword := "b",
                  email := "a@b.c", name := "Alice", surname := "Smith",
                  errorMessage := "Password conformation not correct." },
        registerCall := none,
        navigation := none } :=
  (register_requires_password_match
    { username := "alice", password := "a", confirmPassword := "b",
      email := "a@b.c", name := "Alice", surname := "Smith",
      errorMessage := "" } none (Except.ok ()) (by decide)).1

end QuizApp
